import Mathlib

/-
Verification of the UDP socket façade in src/device/udp_unix.rs.

The module wraps one OS datagram socket (a socket2::Socket) together with an
address-family tag. The wrapper code is translated faithfully below; the
OS/socket2 layer is not part of the source tree, so its primitives are
modelled from the spec and the source's own doc comments, as explicit
state transitions with an oracle argument supplying the nondeterministic
OS response (success, or an injected OS error). Rust panics (including
`expect`) are modelled by a distinguished `fatal` outcome.
-/

namespace UdpUnix

/-- Address family tag, from `enum SocketFamily { IpV4, IpV6 }`. -/
inductive SocketFamily where
  | IpV4 : SocketFamily
  | IpV6 : SocketFamily
deriving DecidableEq

/-- Standard-library IP address (std::net::IpAddr): a 32-bit IPv4 value or a
128-bit IPv6 value, carried as a Nat. -/
inductive IpAddr where
  | v4 : Nat → IpAddr
  | v6 : Nat → IpAddr
deriving DecidableEq

/-- Standard-library socket address (std::net::SocketAddr): an IP address and
a 16-bit port carried as a Nat. -/
structure SocketAddr where
  ip : IpAddr
  port : Nat
deriving DecidableEq

/-- Family of an IP address. -/
def IpAddr.family : IpAddr → SocketFamily
  | .v4 _ => .IpV4
  | .v6 _ => .IpV6

/-- Family of a socket address. -/
def SocketAddr.family (a : SocketAddr) : SocketFamily := a.ip.family

/-- The wildcard IPv4 address 0.0.0.0 (net::Ipv4Addr::UNSPECIFIED). -/
def Ipv4UNSPECIFIED : IpAddr := .v4 0

/-- The wildcard IPv6 address :: (net::Ipv6Addr::UNSPECIFIED). -/
def Ipv6UNSPECIFIED : IpAddr := .v6 0

/-- An OS-level failure (io::Error), identified by its error code. -/
structure OsErr where
  code : Nat
deriving DecidableEq

/-- Modelled from the spec: the crate's uniform error type (super::Error is
outside src/). A single kind, `SocketError`, wraps the underlying OS failure. -/
inductive Error where
  | SocketError : OsErr → Error
deriving DecidableEq

/-- Raw OS socket address (socket2::SockAddr): either an internet (INET or
INET6) address, or an address of some other family (e.g. unix). -/
inductive SockAddr where
  | inet : SocketAddr → SockAddr
  | otherFamily : SockAddr
deriving DecidableEq

/-- socket2::SockAddr::as_std: converts to a std SocketAddr when the raw
address is INET or INET6, and is None otherwise. -/
def SockAddr.as_std : SockAddr → Option SocketAddr
  | .inet a => some a
  | .otherFamily => none

/-- Result of a wrapper operation: success, a soft error value, or a Rust
panic (`fatal`). -/
inductive Outcome (α : Type) where
  | ok : α → Outcome α
  | err : Error → Outcome α
  | fatal : Outcome α
deriving DecidableEq

/-- Result of an OS-layer primitive: success, an OS error, or a fail-fast
abort (`fatal`, modelling the documented panic on family mismatch). -/
inductive OsOut (α : Type) where
  | ok : α → OsOut α
  | err : OsErr → OsOut α
  | fatal : OsOut α
deriving DecidableEq

/-- Modelled from the spec: the state of one OS datagram socket
(socket2::Socket), as far as this module observes it: descriptor, domain,
local binding, connected peer, option flags, shutdown flag, and whether the
descriptor is still open (ownership of the OS resource). -/
structure Socket where
  fd : Nat
  domain : SocketFamily
  bound : Option SocketAddr
  connected : Option SocketAddr
  nonblocking : Bool
  reuse_address : Bool
  reuse_port : Bool
  mark : Option Nat
  isShutdown : Bool
  openFd : Bool
deriving DecidableEq

/-- Modelled from the spec: Socket::new allocates a fresh datagram socket of
the requested domain, or fails with the oracle-injected OS error. -/
def Socket.osNew (d : SocketFamily) (fd : Nat) (r : Option OsErr) : Except OsErr Socket :=
  match r with
  | some e => .error e
  | none => .ok ⟨fd, d, none, none, false, false, false, none, false, true⟩

/-- Modelled from the spec: OS bind records the local address, or fails with
the injected OS error; an address whose family differs from the socket's
domain is a fail-fast condition (undefined-by-contract, abort). -/
def Socket.osBind (s : Socket) (a : SocketAddr) (r : Option OsErr) : OsOut Socket :=
  if a.family = s.domain then
    match r with
    | some e => .err e
    | none => .ok { s with bound := some a }
  else
    .fatal

/-- Modelled from the spec and the source doc comment on connect ("Panics
when connecting an IPv4 socket to an IPv6 address and vice versa"): OS
connect records the peer, fails with the injected OS error, and aborts on a
family mismatch. -/
def Socket.osConnect (s : Socket) (dst : SocketAddr) (r : Option OsErr) : OsOut Socket :=
  if dst.family = s.domain then
    match r with
    | some e => .err e
    | none => .ok { s with connected := some dst }
  else
    .fatal

/-- Modelled from the spec: set_nonblocking flips the non-blocking flag or
fails with the injected OS error. -/
def Socket.osSetNonblocking (s : Socket) (b : Bool) (r : Option OsErr) : Except OsErr Socket :=
  match r with
  | some e => .error e
  | none => .ok { s with nonblocking := b }

/-- Modelled from the spec: set_reuse_address sets SO_REUSEADDR or fails
with the injected OS error. -/
def Socket.osSetReuseAddress (s : Socket) (b : Bool) (r : Option OsErr) : Except OsErr Socket :=
  match r with
  | some e => .error e
  | none => .ok { s with reuse_address := b }

/-- Modelled from the spec: set_reuse_port sets SO_REUSEPORT or fails with
the injected OS error (e.g. on a platform without SO_REUSEPORT). -/
def Socket.osSetReusePort (s : Socket) (b : Bool) (r : Option OsErr) : Except OsErr Socket :=
  match r with
  | some e => .error e
  | none => .ok { s with reuse_port := b }

/-- Modelled from the spec: set_mark sets SO_MARK (Linux) or fails with the
injected OS error. -/
def Socket.osSetMark (s : Socket) (m : Nat) (r : Option OsErr) : Except OsErr Socket :=
  match r with
  | some e => .error e
  | none => .ok { s with mark := some m }

/-- Modelled from the spec: local_addr (getsockname) returns the raw local
address the OS reports, or an OS error; the response is supplied by the
oracle since it is the OS's answer. -/
def Socket.local_addr (_s : Socket) (r : Except OsErr SockAddr) : Except OsErr SockAddr := r

/-- Modelled from the spec: OS send_to accepts the whole datagram (returning
its length) or fails with the injected OS error; a destination family
mismatch with the socket's domain is a fail-fast abort, per the source doc
comment on sendto. -/
def Socket.osSendTo (s : Socket) (buf : List Nat) (dst : SocketAddr) (r : Option OsErr) : OsOut Nat :=
  if dst.family = s.domain then
    match r with
    | some e => .err e
    | none => .ok buf.length
  else
    .fatal

/-- Modelled from the spec: OS recv_from delivers an oracle-chosen datagram
(payload and raw sender address) or an OS error; it writes as many payload
bytes as fit into the buffer and returns the byte count, the sender, and
the buffer contents after the write. -/
def Socket.osRecvFrom (_s : Socket) (buf : List Nat) (r : Except OsErr (List Nat × SockAddr)) :
    Except OsErr (Nat × SockAddr × List Nat) :=
  match r with
  | .error e => .error e
  | .ok (payload, src) =>
    let len := min payload.length buf.length
    .ok (len, src, payload.take len ++ buf.drop len)

/-- Modelled from the spec: OS recv on a connected socket delivers an
oracle-chosen payload or an OS error; it writes as many payload bytes as
fit and returns the byte count and the buffer contents after the write. -/
def Socket.osRecv (_s : Socket) (buf : List Nat) (r : Except OsErr (List Nat)) :
    Except OsErr (Nat × List Nat) :=
  match r with
  | .error e => .error e
  | .ok payload =>
    let len := min payload.length buf.length
    .ok (len, payload.take len ++ buf.drop len)

/-- Modelled from the spec: OS send to the connected peer accepts the whole
datagram or fails with the injected OS error. -/
def Socket.osSend (_s : Socket) (buf : List Nat) (r : Option OsErr) : Except OsErr Nat :=
  match r with
  | some e => .error e
  | none => .ok buf.length

/-- Modelled from the spec: OS shutdown marks the socket shut down (both
directions) or fails with the injected OS error; it does not release the
descriptor. -/
def Socket.osShutdown (s : Socket) (r : Option OsErr) : Except OsErr Socket :=
  match r with
  | some e => .error e
  | none => .ok { s with isShutdown := true }

/-- struct UDPSocket { socket: Socket, family: SocketFamily }. -/
structure UDPSocket where
  socket : Socket
  family : SocketFamily
deriving DecidableEq

/-- UDPSocket::new — create a new IPv4 UDP socket (the `?` on Socket::new
becomes the error case, wrapping the OS failure in the crate error). -/
def UDPSocket.new (fd : Nat) (r : Option OsErr) : Outcome UDPSocket :=
  match Socket.osNew .IpV4 fd r with
  | .error e => .err (.SocketError e)
  | .ok socket => .ok ⟨socket, .IpV4⟩

/-- UDPSocket::new6 — create a new IPv6 UDP socket. -/
def UDPSocket.new6 (fd : Nat) (r : Option OsErr) : Outcome UDPSocket :=
  match Socket.osNew .IpV6 fd r with
  | .error e => .err (.SocketError e)
  | .ok socket => .ok ⟨socket, .IpV6⟩

/-- UDPSocket::bind — bind the socket to a local port: the target address is
the UNSPECIFIED (wildcard) address of the handle's own family with the given
port, then `self.socket.bind(&sockaddr.into())?` and `Ok(self)`. -/
def UDPSocket.bind (self : UDPSocket) (port : Nat) (r : Option OsErr) : Outcome UDPSocket :=
  let sockaddr : SocketAddr :=
    match self.family with
    | .IpV4 => ⟨Ipv4UNSPECIFIED, port⟩
    | .IpV6 => ⟨Ipv6UNSPECIFIED, port⟩
  match self.socket.osBind sockaddr r with
  | .fatal => .fatal
  | .err e => .err (.SocketError e)
  | .ok socket => .ok { self with socket := socket }

/-- UDPSocket::connect — `self.socket.connect(&dst.into())?; Ok(self)`. -/
def UDPSocket.connect (self : UDPSocket) (dst : SocketAddr) (r : Option OsErr) : Outcome UDPSocket :=
  match self.socket.osConnect dst r with
  | .fatal => .fatal
  | .err e => .err (.SocketError e)
  | .ok socket => .ok { self with socket := socket }

/-- UDPSocket::set_non_blocking — `self.socket.set_nonblocking(true)?; Ok(self)`. -/
def UDPSocket.set_non_blocking (self : UDPSocket) (r : Option OsErr) : Outcome UDPSocket :=
  match self.socket.osSetNonblocking true r with
  | .error e => .err (.SocketError e)
  | .ok socket => .ok { self with socket := socket }

/-- UDPSocket::set_reuse — `set_reuse_address(true)?; set_reuse_port(true)?;
Ok(self)`; `r1` and `r2` are the OS responses to the two calls. -/
def UDPSocket.set_reuse (self : UDPSocket) (r1 r2 : Option OsErr) : Outcome UDPSocket :=
  match self.socket.osSetReuseAddress true r1 with
  | .error e => .err (.SocketError e)
  | .ok s1 =>
    match s1.osSetReusePort true r2 with
    | .error e => .err (.SocketError e)
    | .ok s2 => .ok { self with socket := s2 }

/-- UDPSocket::set_fwmark, cfg(target_os = "linux") variant — takes &self,
sets SO_MARK and propagates the OS failure; the pair's second component is
the handle as the borrowing caller still sees it after the call. -/
def UDPSocket.set_fwmark_linux (self : UDPSocket) (m : Nat) (r : Option OsErr) :
    Outcome Unit × UDPSocket :=
  match self.socket.osSetMark m r with
  | .error e => (.err (.SocketError e), self)
  | .ok socket => (.ok (), { self with socket := socket })

/-- UDPSocket::set_fwmark, cfg(macos/ios) variant — `Ok(())`, ignoring the
mark value entirely. -/
def UDPSocket.set_fwmark_macos (self : UDPSocket) (_m : Nat) : Outcome Unit × UDPSocket :=
  (.ok (), self)

/-- UDPSocket::port — `self.socket.local_addr()?.as_std().expect("must be
INET or INET6").port()`; the `expect` on a non-internet raw address is the
fatal (panic) outcome. -/
def UDPSocket.port (self : UDPSocket) (r : Except OsErr SockAddr) : Outcome Nat × UDPSocket :=
  match self.socket.local_addr r with
  | .error e => (.err (.SocketError e), self)
  | .ok raw =>
    match raw.as_std with
    | none => (.fatal, self)
    | some a => (.ok a.port, self)

/-- UDPSocket::sendto — `self.socket.send_to(buf, &dst.into()).map_err(...)`. -/
def UDPSocket.sendto (self : UDPSocket) (buf : List Nat) (dst : SocketAddr) (r : Option OsErr) :
    Outcome Nat × UDPSocket :=
  match self.socket.osSendTo buf dst r with
  | .fatal => (.fatal, self)
  | .err e => (.err (.SocketError e), self)
  | .ok n => (.ok n, self)

/-- UDPSocket::recvfrom — `let (len, addr) = self.socket.recv_from(buf)?;
Ok((addr.as_std().expect("must be INET or INET6"), &mut buf[..len]))`. The
result triple is (returned value, buffer contents after the call, handle as
the borrowing caller still sees it). -/
def UDPSocket.recvfrom (self : UDPSocket) (buf : List Nat)
    (r : Except OsErr (List Nat × SockAddr)) :
    Outcome (SocketAddr × List Nat) × List Nat × UDPSocket :=
  match self.socket.osRecvFrom buf r with
  | .error e => (.err (.SocketError e), buf, self)
  | .ok (len, addr, bufAfter) =>
    match addr.as_std with
    | none => (.fatal, bufAfter, self)
    | some a => (.ok (a, bufAfter.take len), bufAfter, self)

/-- UDPSocket::read — `let len = self.socket.recv(dst)?; Ok(&mut dst[..len])`. -/
def UDPSocket.read (self : UDPSocket) (dst : List Nat) (r : Except OsErr (List Nat)) :
    Outcome (List Nat) × List Nat × UDPSocket :=
  match self.socket.osRecv dst r with
  | .error e => (.err (.SocketError e), dst, self)
  | .ok (len, bufAfter) => (.ok (bufAfter.take len), bufAfter, self)

/-- UDPSocket::write — `self.socket.send(src).map_err(|e| e.into())`. -/
def UDPSocket.write (self : UDPSocket) (src : List Nat) (r : Option OsErr) :
    Outcome Nat × UDPSocket :=
  match self.socket.osSend src r with
  | .error e => (.err (.SocketError e), self)
  | .ok n => (.ok n, self)

/-- UDPSocket::shutdown — `self.socket.shutdown(Shutdown::Both).map_err(...)`. -/
def UDPSocket.shutdown (self : UDPSocket) (r : Option OsErr) : Outcome Unit × UDPSocket :=
  match self.socket.osShutdown r with
  | .error e => (.err (.SocketError e), self)
  | .ok socket => (.ok (), { self with socket := socket })

/-- UDPSocket::as_raw_fd — non-owning view of the descriptor. -/
def UDPSocket.as_raw_fd (self : UDPSocket) : Nat := self.socket.fd

/-- Well-formedness invariant of a handle: the OS socket's domain agrees
with the wrapper's family tag (established by new/new6, never changed). -/
def UDPSocket.wf (s : UDPSocket) : Prop := s.socket.domain = s.family

instance (s : UDPSocket) : Decidable s.wf := by
  unfold UDPSocket.wf; infer_instance

/-- The bind target the spec describes: the wildcard address of the
socket's own family (0.0.0.0 for IPv4, :: for IPv6) on the given port.
This definition follows the spec's words, to be compared with what
UDPSocket.bind passes to the OS. -/
def specBindTarget : SocketFamily → Nat → SocketAddr
  | .IpV4, port => ⟨.v4 0, port⟩
  | .IpV6, port => ⟨.v6 0, port⟩

/-- A fresh IPv4 handle as produced by UDPSocket.new 3 none. -/
def h4 : UDPSocket := ⟨⟨3, .IpV4, none, none, false, false, false, none, false, true⟩, .IpV4⟩

/-- A fresh IPv6 handle as produced by UDPSocket.new6 3 none. -/
def h6 : UDPSocket := ⟨⟨3, .IpV6, none, none, false, false, false, none, false, true⟩, .IpV6⟩

/-- The IPv6 handle h6 after binding to port 51820. -/
def h6b : UDPSocket :=
  ⟨⟨3, .IpV6, some ⟨.v6 0, 51820⟩, none, false, false, false, none, false, true⟩, .IpV6⟩

/-- The IPv4 handle h4 after binding to port 7. -/
def h4b : UDPSocket :=
  ⟨⟨3, .IpV4, some ⟨.v4 0, 7⟩, none, false, false, false, none, false, true⟩, .IpV4⟩

/-- C1: for every well-formed socket handle and every destination address
whose family differs from the handle's family tag, connect and sendto fail
fast (the fatal/panic outcome) rather than returning a soft SocketError; a
family-mismatched address is never silently accepted. -/
theorem connect_sendto_family_mismatch_fail_fast
    (s : UDPSocket) (dst : SocketAddr) (buf : List Nat) (r : Option OsErr)
    (hwf : s.wf) (hne : dst.family ≠ s.family) :
    s.connect dst r = .fatal ∧ (s.sendto buf dst r).1 = .fatal := by
  unfold UDPSocket.wf at hwf
  rw [← hwf] at hne
  constructor
  · unfold UDPSocket.connect Socket.osConnect
    rw [if_neg hne]
  · unfold UDPSocket.sendto Socket.osSendTo
    rw [if_neg hne]

theorem connect_sendto_family_mismatch_fail_fast_witness :
    h4.wf ∧ (⟨.v6 1, 9⟩ : SocketAddr).family ≠ h4.family ∧
    h4.connect ⟨.v6 1, 9⟩ none = .fatal ∧
    (h4.sendto [1, 2] ⟨.v6 1, 9⟩ none).1 = .fatal := by
  have h := connect_sendto_family_mismatch_fail_fast h4 ⟨.v6 1, 9⟩ [1, 2] none
    (by decide) (by decide)
  exact ⟨by decide, by decide, h.1, h.2⟩

/-- C2 counterexample: an IPv6 handle produced by new6 and bound to port
51820, whose port query — with the OS reporting the bound INET6 local
address — returns the bound port instead of panicking, refuting "for every
IPv6-family handle the query panics instead of returning the bound port". -/
theorem port_on_ipv6_returns_bound_port :
    UDPSocket.new6 3 none = .ok h6 ∧
    h6.bind 51820 none = .ok h6b ∧
    h6b.family = .IpV6 ∧
    h6b.socket.bound = some ⟨.v6 0, 51820⟩ ∧
    (h6b.port (.ok (.inet ⟨.v6 0, 51820⟩))).1 = .ok 51820 ∧
    (h6b.port (.ok (.inet ⟨.v6 0, 51820⟩))).1 ≠ .fatal := by
  refine ⟨by decide, by decide, by decide, by decide, by decide, by decide⟩

/-- C2 amended: port returns the port of whatever internet (INET or INET6)
local address the OS reports, for handles of either family, and fails with
SocketError when the OS address query itself fails; the panic is reserved
for a non-internet OS answer. -/
theorem port_family_agnostic (s : UDPSocket) (a : SocketAddr) (e : OsErr) :
    (s.port (.ok (.inet a))).1 = .ok a.port ∧
    (s.port (.error e)).1 = .err (.SocketError e) := ⟨rfl, rfl⟩

/-- C3: the family tag is fixed at creation — new yields IpV4, new6 yields
IpV6 — and every configuration operation that succeeds (bind, connect,
set_non_blocking, set_reuse) returns a handle with the same family tag. -/
theorem family_tag_fixed
    (fd port : Nat) (r r2 : Option OsErr) (dst : SocketAddr)
    (s s1 s2 s3 s4 s5 s6 : UDPSocket) :
    (UDPSocket.new fd r = .ok s1 → s1.family = .IpV4) ∧
    (UDPSocket.new6 fd r = .ok s2 → s2.family = .IpV6) ∧
    (s.bind port r = .ok s3 → s3.family = s.family) ∧
    (s.connect dst r = .ok s4 → s4.family = s.family) ∧
    (s.set_non_blocking r = .ok s5 → s5.family = s.family) ∧
    (s.set_reuse r r2 = .ok s6 → s6.family = s.family) := by
  refine ⟨?_, ?_, ?_, ?_, ?_, ?_⟩ <;> intro h
  · cases r with
    | some e => simp [UDPSocket.new, Socket.osNew] at h
    | none =>
      simp only [UDPSocket.new, Socket.osNew, Outcome.ok.injEq] at h
      rw [← h]
  · cases r with
    | some e => simp [UDPSocket.new6, Socket.osNew] at h
    | none =>
      simp only [UDPSocket.new6, Socket.osNew, Outcome.ok.injEq] at h
      rw [← h]
  · unfold UDPSocket.bind at h
    split at h <;> ((try dsimp only at h); split at h) <;>
      first
        | (injection h with h2; subst h2; rfl)
        | exact Outcome.noConfusion h
  · unfold UDPSocket.connect at h
    split at h <;>
      first
        | (injection h with h2; subst h2; rfl)
        | exact Outcome.noConfusion h
  · unfold UDPSocket.set_non_blocking at h
    split at h <;>
      first
        | (injection h with h2; subst h2; rfl)
        | exact Outcome.noConfusion h
  · unfold UDPSocket.set_reuse at h
    split at h <;> try split at h
    all_goals
      first
        | (injection h with h2; subst h2; rfl)
        | exact Outcome.noConfusion h

theorem family_tag_fixed_witness :
    h4.family = .IpV4 ∧ h6.family = .IpV6 ∧
    h4b.family = h4.family ∧
    (⟨⟨3, .IpV4, none, some ⟨.v4 1, 2⟩, false, false, false, none, false, true⟩,
        .IpV4⟩ : UDPSocket).family = h4.family ∧
    (⟨⟨3, .IpV4, none, none, true, false, false, none, false, true⟩,
        .IpV4⟩ : UDPSocket).family = h4.family ∧
    (⟨⟨3, .IpV4, none, none, false, true, true, none, false, true⟩,
        .IpV4⟩ : UDPSocket).family = h4.family := by
  have h := family_tag_fixed 3 7 none none ⟨.v4 1, 2⟩ h4 h4 h6 h4b
    ⟨⟨3, .IpV4, none, some ⟨.v4 1, 2⟩, false, false, false, none, false, true⟩, .IpV4⟩
    ⟨⟨3, .IpV4, none, none, true, false, false, none, false, true⟩, .IpV4⟩
    ⟨⟨3, .IpV4, none, none, false, true, true, none, false, true⟩, .IpV4⟩
  exact ⟨h.1 (by decide), h.2.1 (by decide), h.2.2.1 (by decide),
    h.2.2.2.1 (by decide), h.2.2.2.2.1 (by decide), h.2.2.2.2.2 (by decide)⟩

/-- C4: for every well-formed handle and every port, a successful bind has
bound the socket to the wildcard address of the handle's own family (0.0.0.0
for IPv4, :: for IPv6) on the given port, and nothing else of the handle
changes — the caller supplies only the port, no specific local address. -/
theorem bind_wildcard_own_family (s s' : UDPSocket) (port : Nat) (r : Option OsErr)
    (hwf : s.wf) (h : s.bind port r = .ok s') :
    s'.socket.bound = some (specBindTarget s.family port) ∧
    s' = { s with socket := { s.socket with bound := some (specBindTarget s.family port) } } ∧
    specBindTarget .IpV4 port = ⟨Ipv4UNSPECIFIED, port⟩ ∧
    specBindTarget .IpV6 port = ⟨Ipv6UNSPECIFIED, port⟩ := by
  obtain ⟨sock, fam⟩ := s
  unfold UDPSocket.wf at hwf
  dsimp at hwf
  cases fam <;> cases r <;>
    simp_all [UDPSocket.bind, Socket.osBind, specBindTarget, Ipv4UNSPECIFIED,
      Ipv6UNSPECIFIED, SocketAddr.family, IpAddr.family] <;>
    rw [← h]

theorem bind_wildcard_own_family_witness :
    h4b.socket.bound = some (specBindTarget h4.family 7) ∧
    h4b = { h4 with
      socket := { h4.socket with bound := some (specBindTarget h4.family 7) } } ∧
    specBindTarget .IpV4 7 = ⟨Ipv4UNSPECIFIED, 7⟩ ∧
    specBindTarget .IpV6 7 = ⟨Ipv6UNSPECIFIED, 7⟩ :=
  bind_wildcard_own_family h4 h4b 7 none (by decide) (by decide)

/-- C5: a successful recvfrom returns the sender's address together with the
filled slice of the caller's buffer, and a successful connected read returns
the filled slice with no address; the returned slice is an initial segment
of the buffer after the call, its length is the number of bytes received
(min of datagram and buffer length), at most the buffer's length, and the
buffer keeps its length. -/
theorem recv_fills_caller_buffer (s : UDPSocket) (b p : List Nat) (a : SocketAddr) :
    (∃ slice bufAfter,
      s.recvfrom b (.ok (p, .inet a)) = (.ok (a, slice), bufAfter, s) ∧
      bufAfter.take slice.length = slice ∧
      slice.length = min p.length b.length ∧
      slice.length ≤ b.length ∧
      bufAfter.length = b.length) ∧
    (∃ slice bufAfter,
      s.read b (.ok p) = (.ok slice, bufAfter, s) ∧
      bufAfter.take slice.length = slice ∧
      slice.length = min p.length b.length ∧
      slice.length ≤ b.length ∧
      bufAfter.length = b.length) := by
  have hbuf : (p.take (min p.length b.length) ++ b.drop (min p.length b.length)).length
      = b.length := by
    simp [List.length_append, List.length_take, List.length_drop]
  have hsl : ((p.take (min p.length b.length) ++ b.drop (min p.length b.length)).take
      (min p.length b.length)).length = min p.length b.length := by
    simp [List.length_take, hbuf]
  constructor
  · refine ⟨_, _, rfl, ?_, hsl, ?_, hbuf⟩
    · rw [hsl]
    · rw [hsl]; omega
  · refine ⟨_, _, rfl, ?_, hsl, ?_, hbuf⟩
    · rw [hsl]
    · rw [hsl]; omega

/-- C6: set_reuse sets both the address-reuse and the port-reuse options; a
failure of the port-reuse (or address-reuse) OS call is returned as this
operation's own SocketError, never silently ignored. -/
theorem set_reuse_sets_both_or_fails (s : UDPSocket) (e : OsErr) (r2 : Option OsErr) :
    s.set_reuse none none =
      .ok { s with socket := { s.socket with reuse_address := true, reuse_port := true } } ∧
    s.set_reuse none (some e) = .err (.SocketError e) ∧
    s.set_reuse (some e) r2 = .err (.SocketError e) := ⟨rfl, rfl, rfl⟩

/-- C7: on macOS/iOS, set_fwmark is a no-op returning success for every
handle and every mark value, changing nothing; on Linux it sets the SO_MARK
option and propagates the OS failure as a SocketError. -/
theorem set_fwmark_platform_contract (s : UDPSocket) (m : Nat) (e : OsErr) :
    s.set_fwmark_macos m = (.ok (), s) ∧
    s.set_fwmark_linux m none = (.ok (), { s with socket := { s.socket with mark := some m } }) ∧
    s.set_fwmark_linux m (some e) = (.err (.SocketError e), s) := ⟨rfl, rfl, rfl⟩

/-- C8: every fallible operation propagates an underlying OS failure as a
SocketError wrapping that failure — no OS error is swallowed and converted
to a success — with the single documented exception of the macOS/iOS
set_fwmark no-op, which always succeeds. -/
theorem os_errors_propagate
    (s : UDPSocket) (fd port m : Nat) (e : OsErr) (r2 : Option OsErr)
    (dst : SocketAddr) (buf : List Nat)
    (hwf : s.wf) (hdst : dst.family = s.family) :
    UDPSocket.new fd (some e) = .err (.SocketError e) ∧
    UDPSocket.new6 fd (some e) = .err (.SocketError e) ∧
    s.bind port (some e) = .err (.SocketError e) ∧
    s.connect dst (some e) = .err (.SocketError e) ∧
    s.set_non_blocking (some e) = .err (.SocketError e) ∧
    s.set_reuse (some e) r2 = .err (.SocketError e) ∧
    s.set_reuse none (some e) = .err (.SocketError e) ∧
    (s.set_fwmark_linux m (some e)).1 = .err (.SocketError e) ∧
    (s.port (.error e)).1 = .err (.SocketError e) ∧
    (s.sendto buf dst (some e)).1 = .err (.SocketError e) ∧
    (s.recvfrom buf (.error e)).1 = .err (.SocketError e) ∧
    (s.read buf (.error e)).1 = .err (.SocketError e) ∧
    (s.write buf (some e)).1 = .err (.SocketError e) ∧
    (s.shutdown (some e)).1 = .err (.SocketError e) ∧
    (s.set_fwmark_macos m).1 = .ok () := by
  obtain ⟨sock, fam⟩ := s
  unfold UDPSocket.wf at hwf
  dsimp at hwf hdst
  refine ⟨rfl, rfl, ?_, ?_, rfl, rfl, rfl, rfl, rfl, ?_, rfl, rfl, rfl, rfl, rfl⟩
  · cases fam <;>
      simp [UDPSocket.bind, Socket.osBind, hwf, Ipv4UNSPECIFIED, Ipv6UNSPECIFIED,
        SocketAddr.family, IpAddr.family]
  · simp [UDPSocket.connect, Socket.osConnect, hwf, hdst]
  · simp [UDPSocket.sendto, Socket.osSendTo, hwf, hdst]

theorem os_errors_propagate_witness :
    UDPSocket.new 9 (some ⟨13⟩) = .err (.SocketError ⟨13⟩) ∧
    UDPSocket.new6 9 (some ⟨13⟩) = .err (.SocketError ⟨13⟩) ∧
    h4.bind 7 (some ⟨13⟩) = .err (.SocketError ⟨13⟩) ∧
    h4.connect ⟨.v4 1, 2⟩ (some ⟨13⟩) = .err (.SocketError ⟨13⟩) ∧
    h4.set_non_blocking (some ⟨13⟩) = .err (.SocketError ⟨13⟩) ∧
    h4.set_reuse (some ⟨13⟩) none = .err (.SocketError ⟨13⟩) ∧
    h4.set_reuse none (some ⟨13⟩) = .err (.SocketError ⟨13⟩) ∧
    (h4.set_fwmark_linux 5 (some ⟨13⟩)).1 = .err (.SocketError ⟨13⟩) ∧
    (h4.port (.error ⟨13⟩)).1 = .err (.SocketError ⟨13⟩) ∧
    (h4.sendto [1] ⟨.v4 1, 2⟩ (some ⟨13⟩)).1 = .err (.SocketError ⟨13⟩) ∧
    (h4.recvfrom [1] (.error ⟨13⟩)).1 = .err (.SocketError ⟨13⟩) ∧
    (h4.read [1] (.error ⟨13⟩)).1 = .err (.SocketError ⟨13⟩) ∧
    (h4.write [1] (some ⟨13⟩)).1 = .err (.SocketError ⟨13⟩) ∧
    (h4.shutdown (some ⟨13⟩)).1 = .err (.SocketError ⟨13⟩) ∧
    (h4.set_fwmark_macos 5).1 = .ok () :=
  os_errors_propagate h4 9 7 5 ⟨13⟩ none ⟨.v4 1, 2⟩ [1] (by decide) (by decide)

/-- C9: the expect("must be INET or INET6") branches in port and recvfrom
are unreachable whenever the OS-reported local or sender address is
convertible to a standard internet socket address (as it always is for the
IPv4/IPv6 sockets made by new/new6): under that precondition both
operations return ok or a SocketError but never the fatal (panic) outcome. -/
theorem inet_addr_makes_port_recv_total
    (s : UDPSocket) (buf p : List Nat) (raw : SockAddr) (e : OsErr)
    (h : raw.as_std.isSome = true) :
    (s.port (.ok raw)).1 ≠ .fatal ∧
    (s.port (.error e)).1 ≠ .fatal ∧
    (s.recvfrom buf (.ok (p, raw))).1 ≠ .fatal ∧
    (s.recvfrom buf (.error e)).1 ≠ .fatal := by
  cases raw with
  | inet a =>
    refine ⟨?_, ?_, ?_, ?_⟩ <;>
      simp [UDPSocket.port, UDPSocket.recvfrom, Socket.local_addr, Socket.osRecvFrom,
        SockAddr.as_std]
  | otherFamily => simp [SockAddr.as_std] at h

theorem inet_addr_makes_port_recv_total_witness :
    (h4.port (.ok (.inet ⟨.v4 0, 1⟩))).1 ≠ .fatal ∧
    (h4.port (.error ⟨13⟩)).1 ≠ .fatal ∧
    (h4.recvfrom [1] (.ok ([2], .inet ⟨.v4 0, 1⟩))).1 ≠ .fatal ∧
    (h4.recvfrom [1] (.error ⟨13⟩)).1 ≠ .fatal :=
  inet_addr_makes_port_recv_total h4 [1] [2] (.inet ⟨.v4 0, 1⟩) ⟨13⟩ (by decide)

/-- Two handle views agree on the family tag, the descriptor, and whether
the OS resource is still owned (descriptor open). -/
def UDPSocket.sameHandle (a b : UDPSocket) : Prop :=
  a.family = b.family ∧ a.socket.fd = b.socket.fd ∧ a.socket.openFd = b.socket.openFd

/-- C10: every shared-reference operation (sendto, recvfrom, read, write,
shutdown, port, set_fwmark, as_raw_fd) leaves the handle itself unchanged:
after the call — whether it succeeds or fails — the handle has the same
family tag, the same descriptor, and still owns the open OS resource, so it
remains usable; as_raw_fd is a pure non-owning view of the descriptor. -/
theorem shared_ref_ops_preserve_handle
    (s : UDPSocket) (buf : List Nat) (dst : SocketAddr) (m : Nat)
    (rs rw rsh rm : Option OsErr) (rp : Except OsErr SockAddr)
    (rr : Except OsErr (List Nat × SockAddr)) (rd : Except OsErr (List Nat)) :
    UDPSocket.sameHandle ((s.sendto buf dst rs).2) s ∧
    UDPSocket.sameHandle ((s.recvfrom buf rr).2.2) s ∧
    UDPSocket.sameHandle ((s.read buf rd).2.2) s ∧
    UDPSocket.sameHandle ((s.write buf rw).2) s ∧
    UDPSocket.sameHandle ((s.shutdown rsh).2) s ∧
    UDPSocket.sameHandle ((s.port rp).2) s ∧
    UDPSocket.sameHandle ((s.set_fwmark_linux m rm).2) s ∧
    UDPSocket.sameHandle ((s.set_fwmark_macos m).2) s ∧
    s.as_raw_fd = s.socket.fd := by
  refine ⟨?_, ?_, ?_, ?_, ?_, ?_, ?_, ?_, rfl⟩
  · unfold UDPSocket.sendto
    split <;> simp [UDPSocket.sameHandle]
  · unfold UDPSocket.recvfrom
    split <;> (try split) <;> simp [UDPSocket.sameHandle]
  · unfold UDPSocket.read
    split <;> simp [UDPSocket.sameHandle]
  · unfold UDPSocket.write
    split <;> simp [UDPSocket.sameHandle]
  · cases rsh <;>
      simp [UDPSocket.shutdown, Socket.osShutdown, UDPSocket.sameHandle]
  · unfold UDPSocket.port
    split <;> (try split) <;> simp [UDPSocket.sameHandle]
  · cases rm <;>
      simp [UDPSocket.set_fwmark_linux, Socket.osSetMark, UDPSocket.sameHandle]
  · simp [UDPSocket.set_fwmark_macos, UDPSocket.sameHandle]

end UdpUnix
